import Mathlib

/-!
Verification of the SOCKS5 server wrapper (`src/main.rs`) of billitech/fast-socks.

The own logic of the wrapper — option validation (`spawn_socks_server`), the
per-session dispatch (`serve_socks5`), the credential-equality closure, and
error isolation in the accept loop (`spawn_and_log_error`) — is embedded
directly from the source.  The SOCKS5 protocol engine itself
(`Socks5ServerProtocol::accept_no_auth`, `accept_password_auth`,
`read_command`, `resolve_dns`, `run_tcp_proxy`, `run_udp_proxy`) lives in the
`fast_socks5` library, whose code is not under `src/`; those steps are
modelled from the specification, with their externally visible outcomes
drawn from an environment record `Env`.  Every session is given a trace of
`Event`s so that ordering and reachability properties can be stated.
-/

/-- An IP address, as in `std::net::IpAddr`. -/
inductive IpAddr where
  | v4 (a b c d : Nat)
  | v6 (segments : List Nat)
deriving DecidableEq, Repr

/-- Authentication modes of the wrapper: no authentication or password-based
(`enum AuthMode` in `main.rs`). -/
inductive AuthMode where
  | noAuth
  | password (username : String) (password : String)
deriving DecidableEq, Repr

/-- The command-line options of the wrapper (`struct Opt` in `main.rs`). -/
structure Opt where
  listen_addr : String
  public_addr : Option IpAddr
  request_timeout : Nat
  auth : AuthMode
  skip_auth : Bool
  allow_udp : Bool
deriving DecidableEq, Repr

/-- The `request_timeout` field carries `default_value = "10"` in its
structopt attribute: an absent `-t` flag parses to 10 seconds. -/
def default_request_timeout : Nat := 10

/-- Structopt parsing of the request-timeout flag: the supplied value, or the
declared default when the flag is absent. -/
def parse_request_timeout (arg : Option Nat) : Nat :=
  arg.getD default_request_timeout

/-- SOCKS5 commands (`fast_socks5::Socks5Command`). -/
inductive Socks5Command where
  | tcpConnect
  | tcpBind
  | udpAssociate
deriving DecidableEq, Repr

/-- SOCKS5 reply status codes (`fast_socks5::ReplyError`), as used by the
wrapper and the ReplyStatus enumeration of the spec. -/
inductive ReplyError where
  | succeeded
  | generalFailure
  | connectionNotAllowed
  | networkUnreachable
  | hostUnreachable
  | connectionRefused
  | ttlExpired
  | commandNotSupported
  | addressTypeNotSupported
deriving DecidableEq, Repr

/-- Errors of the wrapper (`fast_socks5::SocksError`, restricted to the
variants the wrapper can produce).  `context` is the anyhow context error of
the `opt.public_addr.context("invalid reply ip")?` line and arises nowhere
else. -/
inductive SocksError where
  | argumentInputError (msg : String)
  | replyError (e : ReplyError)
  | authenticationRejected (msg : String)
  | ioError (msg : String)
  | context (msg : String)
deriving DecidableEq, Repr

/-- A requested destination: a concrete IP or a still-symbolic domain name. -/
inductive TargetAddr where
  | ip (addr : IpAddr) (port : Nat)
  | domain (name : String) (port : Nat)
deriving DecidableEq, Repr

/-- Observable steps of one session, in the order the session performs them. -/
inductive Event where
  | handshake
  | skipAuth
  | authNoAuth
  | authPassword (user pass : String) (ok : Bool)
  | readCommand
  | resolveDns
  | replyErrorSent (e : ReplyError)
  | tcpConnectAttempt (timeout : Nat)
  | tcpRelay (timeout : Nat)
  | udpSocketBind
  | udpRelay (replyIp : IpAddr)
deriving DecidableEq, Repr

/-- The phase of the session state machine an event belongs to:
handshake < authentication < request parsing < resolution < socket
opening / error reply < relay. -/
def Event.phase : Event → Nat
  | Event.handshake => 0
  | Event.skipAuth => 1
  | Event.authNoAuth => 1
  | Event.authPassword _ _ _ => 1
  | Event.readCommand => 2
  | Event.resolveDns => 3
  | Event.replyErrorSent _ => 4
  | Event.tcpConnectAttempt _ => 4
  | Event.udpSocketBind => 4
  | Event.tcpRelay _ => 5
  | Event.udpRelay _ => 6

/-- Whether the event is the execution of a relay (TCP or UDP). -/
def Event.isRelay : Event → Bool
  | Event.tcpRelay _ => true
  | Event.udpRelay _ => true
  | _ => false

/-- Whether the event opens a destination-facing socket (TCP connect attempt
or UDP socket bind). -/
def Event.opensSocket : Event → Bool
  | Event.tcpConnectAttempt _ => true
  | Event.udpSocketBind => true
  | _ => false

/-- Whether the event belongs to the UDP relay machinery. -/
def Event.isUdp : Event → Bool
  | Event.udpSocketBind => true
  | Event.udpRelay _ => true
  | _ => false

/-- The environment of one session: the outcomes that the client, the
network and the DNS collaborator impose on the protocol steps of the library.
The wrapper itself is deterministic given these. -/
structure Env where
  /-- The method-negotiation handshake completes successfully. -/
  handshakeOk : Bool
  /-- The (username, password) pair the client submits in password mode. -/
  submitted : String × String
  /-- Outcome of reading the request frame: a parsed (command, destination)
  or a protocol-level reply error (AddressTypeNotSupported, framing). -/
  request : Except ReplyError (Socks5Command × TargetAddr)
  /-- The DNS collaborator: domain name to resolved address, if any. -/
  resolveResult : String → Option IpAddr
  /-- Writing an error reply frame to the client succeeds. -/
  replyWriteOk : Bool
  /-- Seconds until the destination TCP connect would complete. -/
  connectLatency : Nat
  /-- The destination TCP connect succeeds (once not timed out). -/
  tcpConnectOk : Bool
  /-- The bidirectional TCP relay ends without an I/O error. -/
  tcpRelayOk : Bool
  /-- Binding the per-session UDP socket succeeds. -/
  udpBindOk : Bool
  /-- The UDP datagram relay ends without an I/O error. -/
  udpRelayOk : Bool

/-- Validation performed by `spawn_socks_server` before binding the
listener: UDP requires a public address, and `skip-auth` is incompatible
with an authentication mode other than `NoAuth` (`main.rs` lines 78-87). -/
def validate_opt (opt : Opt) : Except SocksError Unit :=
  if opt.allow_udp = true ∧ opt.public_addr = none then
    Except.error (SocksError.argumentInputError
      "Cannot allow UDP if public-addr is not set")
  else if opt.skip_auth = true ∧ opt.auth ≠ AuthMode.noAuth then
    Except.error (SocksError.argumentInputError
      "Cannot use skip-auth flag and authentication together")
  else
    Except.ok ()

/-- Startup events of `spawn_socks_server`. -/
inductive StartupEvent where
  | listenerBound
deriving DecidableEq, Repr

/-- The startup phase of `spawn_socks_server`: validate the options, then
bind the listener (`main.rs` lines 74-90).  `bindOk` is whether the
operating system grants the listening address. -/
def spawn_socks_server_startup (opt : Opt) (bindOk : Bool) :
    Except SocksError Unit × List StartupEvent :=
  match validate_opt opt with
  | Except.error e => (Except.error e, [])
  | Except.ok _ =>
    if bindOk then (Except.ok (), [StartupEvent.listenerBound])
    else (Except.error (SocksError.ioError "bind failed"), [])

/-- Modelled from the spec: `Socks5ServerProtocol::skip_auth_this_is_not_rfc_compliant`
(library code not under `src/`) skips the handshake entirely; it is
infallible and exchanges no bytes. -/
def skip_auth_protocol : Except SocksError Unit × List Event :=
  (Except.ok (), [Event.skipAuth])

/-- Modelled from the spec: `Socks5ServerProtocol::accept_no_auth` (library
code not under `src/`) performs the method-negotiation handshake and, in
No-Auth mode, succeeds immediately with no further bytes exchanged
(spec 4.1, 4.2). -/
def accept_no_auth (env : Env) : Except SocksError Unit × List Event :=
  if env.handshakeOk = false then
    (Except.error (SocksError.ioError "handshake failed"), [Event.handshake])
  else
    (Except.ok (), [Event.handshake, Event.authNoAuth])

/-- Modelled from the spec: `Socks5ServerProtocol::accept_password_auth`
(library code not under `src/`) performs the handshake, reads the submitted
credentials, invokes the externally supplied predicate, and succeeds exactly
when the predicate accepts; on rejection the session terminates immediately
(spec 4.2). -/
def accept_password_auth (env : Env) (check : String → String → Bool) :
    Except SocksError Unit × List Event :=
  if env.handshakeOk = false then
    (Except.error (SocksError.ioError "handshake failed"), [Event.handshake])
  else if check env.submitted.1 env.submitted.2 then
    (Except.ok (),
     [Event.handshake, Event.authPassword env.submitted.1 env.submitted.2 true])
  else
    (Except.error (SocksError.authenticationRejected "Authentication failed"),
     [Event.handshake, Event.authPassword env.submitted.1 env.submitted.2 false])

/-- The authentication dispatch of `serve_socks5` (`main.rs` lines 105-117):
`NoAuth` with `skip_auth` takes the non-RFC-compliant skip path, `NoAuth`
performs the plain handshake, and `Password` supplies the exact-equality
closure `|user, pass| user == *username && pass == *password`. -/
def auth_step (opt : Opt) (env : Env) : Except SocksError Unit × List Event :=
  match opt.auth with
  | AuthMode.noAuth =>
    if opt.skip_auth then skip_auth_protocol
    else accept_no_auth env
  | AuthMode.password u p =>
    accept_password_auth env (fun user pass => user == u && pass == p)

/-- Modelled from the spec: `read_command` (library code not under `src/`)
reads the request frame and produces the parsed (command, destination) or a
protocol-level reply error (spec 4.3). -/
def read_command (env : Env) :
    Except SocksError (Socks5Command × TargetAddr) × List Event :=
  match env.request with
  | Except.error e => (Except.error (SocksError.replyError e), [Event.readCommand])
  | Except.ok r => (Except.ok r, [Event.readCommand])

/-- Modelled from the spec: `resolve_dns` (library code not under `src/`) is
a no-op on a concrete IP and resolves a domain name through the external
collaborator, mapping failure to HostUnreachable (spec 4.4). -/
def resolve_dns (env : Env) (ta : TargetAddr) :
    Except SocksError TargetAddr × List Event :=
  match ta with
  | TargetAddr.ip addr port => (Except.ok (TargetAddr.ip addr port), [Event.resolveDns])
  | TargetAddr.domain name port =>
    match env.resolveResult name with
    | some addr => (Except.ok (TargetAddr.ip addr port), [Event.resolveDns])
    | none =>
      (Except.error (SocksError.replyError ReplyError.hostUnreachable),
       [Event.resolveDns])

/-- Modelled from the spec: the Reply Encoder sends an error reply frame to
the client; the write itself can fail at the wire (spec 4.5). -/
def reply_error_step (env : Env) (e : ReplyError) :
    Except SocksError Unit × List Event :=
  if env.replyWriteOk then (Except.ok (), [Event.replyErrorSent e])
  else (Except.error (SocksError.ioError "reply write failed"), [])

/-- The rejection arm of the command match (`main.rs` lines 131-134):
send a CommandNotSupported reply, then return it as the session error. -/
def reject_command (env : Env) : Except SocksError Unit × List Event :=
  match reply_error_step env ReplyError.commandNotSupported with
  | (Except.ok _, tr) =>
    (Except.error (SocksError.replyError ReplyError.commandNotSupported), tr)
  | (Except.error e, tr) => (Except.error e, tr)

/-- Modelled from the spec: `run_tcp_proxy` (library code not under `src/`)
opens a TCP connection to the destination under the caller-supplied timeout
(the connect fails once the timeout elapses), then relays bidirectionally
(spec 4.6, section 5). -/
def run_tcp_proxy (env : Env) (_ta : TargetAddr) (timeout : Nat) :
    Except SocksError Unit × List Event :=
  if timeout < env.connectLatency then
    (Except.error (SocksError.replyError ReplyError.generalFailure),
     [Event.tcpConnectAttempt timeout])
  else if env.tcpConnectOk = false then
    (Except.error (SocksError.replyError ReplyError.connectionRefused),
     [Event.tcpConnectAttempt timeout])
  else if env.tcpRelayOk then
    (Except.ok (), [Event.tcpConnectAttempt timeout, Event.tcpRelay timeout])
  else
    (Except.error (SocksError.ioError "tcp relay io error"),
     [Event.tcpConnectAttempt timeout, Event.tcpRelay timeout])

/-- Modelled from the spec: `run_udp_proxy` (library code not under `src/`)
binds a fresh UDP socket, replies with its address, and relays datagrams,
reporting the caller-supplied public reply IP (spec 4.7). -/
def run_udp_proxy (env : Env) (_ta : TargetAddr) (replyIp : IpAddr) :
    Except SocksError Unit × List Event :=
  if env.udpBindOk = false then
    (Except.error (SocksError.replyError ReplyError.generalFailure),
     [Event.udpSocketBind])
  else if env.udpRelayOk then
    (Except.ok (), [Event.udpSocketBind, Event.udpRelay replyIp])
  else
    (Except.error (SocksError.ioError "udp relay io error"),
     [Event.udpSocketBind, Event.udpRelay replyIp])

/-- The command dispatch of `serve_socks5` (`main.rs` lines 123-135):
Connect runs the TCP proxy with `opt.request_timeout`; UdpAssociate guarded
by `opt.allow_udp` requires the public address (anyhow context error
"invalid reply ip" when absent) and runs the UDP proxy; everything else is
rejected with CommandNotSupported. -/
def command_step (opt : Opt) (env : Env) (cmd : Socks5Command)
    (ta : TargetAddr) : Except SocksError Unit × List Event :=
  match cmd with
  | Socks5Command.tcpConnect => run_tcp_proxy env ta opt.request_timeout
  | Socks5Command.udpAssociate =>
    if opt.allow_udp then
      match opt.public_addr with
      | some replyIp => run_udp_proxy env ta replyIp
      | none => (Except.error (SocksError.context "invalid reply ip"), [])
    else reject_command env
  | Socks5Command.tcpBind => reject_command env

/-- One session of `serve_socks5` (`main.rs` lines 104-137): authentication
dispatch, then `read_command`, then `resolve_dns`, then the command
dispatch; each `?` propagates the failure and ends the session. -/
def serve_socks5 (opt : Opt) (env : Env) :
    Except SocksError Unit × List Event :=
  match auth_step opt env with
  | (Except.error e, tr) => (Except.error e, tr)
  | (Except.ok _, tr1) =>
    match read_command env with
    | (Except.error e, tr2) => (Except.error e, tr1 ++ tr2)
    | (Except.ok (cmd, ta), tr2) =>
      match resolve_dns env ta with
      | (Except.error e, tr3) => (Except.error e, tr1 ++ (tr2 ++ tr3))
      | (Except.ok ta2, tr3) =>
        match command_step opt env cmd ta2 with
        | (r, tr4) => (r, tr1 ++ (tr2 ++ (tr3 ++ tr4)))

/-- The operator-facing log line for a session error. -/
def SocksError.message : SocksError → String
  | SocksError.argumentInputError m => m
  | SocksError.replyError _ => "reply error"
  | SocksError.authenticationRejected m => m
  | SocksError.ioError m => m
  | SocksError.context m => m

/-- `spawn_and_log_error` (`main.rs` lines 139-148): the spawned task
swallows the error of the session, logging it; nothing propagates. -/
def spawn_and_log_error (r : Except SocksError Unit) : Option String :=
  match r with
  | Except.ok _ => none
  | Except.error e => some e.message

/-- The observable outcome of one iteration of the accept loop. -/
structure LoopStep where
  log : Option String
  continues : Bool
deriving DecidableEq, Repr

/-- One iteration of the accept loop of `spawn_socks_server` (`main.rs`
lines 92-101): an accept error is logged and the loop continues; an accepted
connection is handed to `spawn_and_log_error (serve_socks5 ...)` and the
loop continues unconditionally. -/
def accept_iteration (acceptResult : Except String (Opt × Env)) : LoopStep :=
  match acceptResult with
  | Except.error err => { log := some ("Accept error: " ++ err), continues := true }
  | Except.ok (opt, env) =>
    { log := spawn_and_log_error (serve_socks5 opt env).1, continues := true }

/-! ### Helper lemmas about events and the session steps -/

lemma phase_ge_of_isRelay (ev : Event) (h : ev.isRelay = true) :
    5 ≤ ev.phase := by
  cases ev <;> simp_all [Event.isRelay, Event.phase]

lemma phase_eq_of_opensSocket (ev : Event) (h : ev.opensSocket = true) :
    ev.phase = 4 := by
  cases ev <;> simp_all [Event.opensSocket, Event.phase]

lemma phase_ge_of_isUdp (ev : Event) (h : ev.isUdp = true) :
    4 ≤ ev.phase := by
  cases ev <;> simp_all [Event.isUdp, Event.phase]

lemma auth_step_sorted (opt : Opt) (env : Env) :
    (auth_step opt env).2.Pairwise fun a b => a.phase < b.phase := by
  unfold auth_step skip_auth_protocol accept_no_auth accept_password_auth
  rcases opt.auth with _ | ⟨u, p⟩
  · by_cases h1 : opt.skip_auth <;> by_cases h2 : env.handshakeOk <;>
      simp [h1, h2, Event.phase]
  · by_cases h2 : env.handshakeOk <;>
      by_cases h3 : (env.submitted.1 == u && env.submitted.2 == p) = true <;>
      simp [h2, h3, Event.phase]

lemma auth_step_phase_le (opt : Opt) (env : Env) :
    ∀ ev ∈ (auth_step opt env).2, ev.phase ≤ 1 := by
  unfold auth_step skip_auth_protocol accept_no_auth accept_password_auth
  rcases opt.auth with _ | ⟨u, p⟩
  · by_cases h1 : opt.skip_auth <;> by_cases h2 : env.handshakeOk <;>
      simp [h1, h2, Event.phase]
  · by_cases h2 : env.handshakeOk <;>
      by_cases h3 : (env.submitted.1 == u && env.submitted.2 == p) = true <;>
      simp [h2, h3, Event.phase]

lemma read_command_trace (env : Env) :
    (read_command env).2 = [Event.readCommand] := by
  unfold read_command; cases env.request <;> rfl


lemma resolve_dns_trace (env : Env) (ta : TargetAddr) :
    (resolve_dns env ta).2 = [Event.resolveDns] := by
  cases ta with
  | ip a port => rfl
  | domain name port =>
    simp only [resolve_dns]
    cases env.resolveResult name <;> rfl

lemma reject_command_cases (env : Env) :
    reject_command env =
      (if env.replyWriteOk then
         (Except.error (SocksError.replyError ReplyError.commandNotSupported),
          [Event.replyErrorSent ReplyError.commandNotSupported])
       else (Except.error (SocksError.ioError "reply write failed"), [])) := by
  unfold reject_command reply_error_step
  by_cases h : env.replyWriteOk <;> simp [h]

lemma command_step_sorted (opt : Opt) (env : Env) (cmd : Socks5Command)
    (ta : TargetAddr) :
    (command_step opt env cmd ta).2.Pairwise fun a b => a.phase < b.phase := by
  cases cmd with
  | tcpConnect =>
    simp only [command_step, run_tcp_proxy]
    by_cases h1 : opt.request_timeout < env.connectLatency <;>
      by_cases h2 : env.tcpConnectOk <;> by_cases h3 : env.tcpRelayOk <;>
      simp [h1, h2, h3, Event.phase]
  | tcpBind =>
    simp only [command_step, reject_command_cases]
    by_cases h : env.replyWriteOk <;> simp [h, Event.phase]
  | udpAssociate =>
    simp only [command_step, reject_command_cases]
    by_cases hu : opt.allow_udp
    · cases hp : opt.public_addr with
      | none => simp [hu, hp]
      | some replyIp =>
        simp only [hu, hp, if_true, run_udp_proxy]
        by_cases h1 : env.udpBindOk <;> by_cases h2 : env.udpRelayOk <;>
          simp [h1, h2, Event.phase]
    · simp [hu, Event.phase]
      by_cases h : env.replyWriteOk <;> simp [h, Event.phase]

lemma command_step_phase_ge (opt : Opt) (env : Env) (cmd : Socks5Command)
    (ta : TargetAddr) :
    ∀ ev ∈ (command_step opt env cmd ta).2, 4 ≤ ev.phase := by
  cases cmd with
  | tcpConnect =>
    simp only [command_step, run_tcp_proxy]
    by_cases h1 : opt.request_timeout < env.connectLatency <;>
      by_cases h2 : env.tcpConnectOk <;> by_cases h3 : env.tcpRelayOk <;>
      simp [h1, h2, h3, Event.phase]
  | tcpBind =>
    simp only [command_step, reject_command_cases]
    by_cases h : env.replyWriteOk <;> simp [h, Event.phase]
  | udpAssociate =>
    simp only [command_step, reject_command_cases]
    by_cases hu : opt.allow_udp
    · cases hp : opt.public_addr with
      | none => simp [hu, hp]
      | some replyIp =>
        simp only [hu, hp, if_true, run_udp_proxy]
        by_cases h1 : env.udpBindOk <;> by_cases h2 : env.udpRelayOk <;>
          simp [h1, h2, Event.phase]
    · by_cases h : env.replyWriteOk <;> simp [hu, h, Event.phase]

lemma command_step_relay_count_le (opt : Opt) (env : Env)
    (cmd : Socks5Command) (ta : TargetAddr) :
    (command_step opt env cmd ta).2.countP Event.isRelay ≤ 1 := by
  cases cmd with
  | tcpConnect =>
    simp only [command_step, run_tcp_proxy]
    by_cases h1 : opt.request_timeout < env.connectLatency <;>
      by_cases h2 : env.tcpConnectOk <;> by_cases h3 : env.tcpRelayOk <;>
      simp [h1, h2, h3, Event.isRelay, List.countP_cons]
  | tcpBind =>
    simp only [command_step, reject_command_cases]
    by_cases h : env.replyWriteOk <;>
      simp [h, Event.isRelay, List.countP_cons]
  | udpAssociate =>
    simp only [command_step, reject_command_cases]
    by_cases hu : opt.allow_udp
    · cases hp : opt.public_addr with
      | none => simp [hu, hp]
      | some replyIp =>
        simp only [hu, hp, if_true, run_udp_proxy]
        by_cases h1 : env.udpBindOk <;> by_cases h2 : env.udpRelayOk <;>
          simp [h1, h2, Event.isRelay, List.countP_cons]
    · by_cases h : env.replyWriteOk <;>
        simp [hu, h, Event.isRelay, List.countP_cons]

lemma command_step_relay_count_of_ok (opt : Opt) (env : Env)
    (cmd : Socks5Command) (ta : TargetAddr)
    (h : (command_step opt env cmd ta).1 = Except.ok ()) :
    (command_step opt env cmd ta).2.countP Event.isRelay = 1 := by
  cases cmd with
  | tcpConnect =>
    simp only [command_step, run_tcp_proxy] at h ⊢
    by_cases h1 : opt.request_timeout < env.connectLatency
    · simp_all
    · rw [if_neg h1] at h ⊢
      by_cases h2 : env.tcpConnectOk <;> by_cases h3 : env.tcpRelayOk <;>
        simp_all [Event.isRelay, List.countP_cons]
  | tcpBind =>
    simp only [command_step, reject_command_cases] at h ⊢
    by_cases hw : env.replyWriteOk <;> simp_all
  | udpAssociate =>
    simp only [command_step, reject_command_cases] at h ⊢
    by_cases hu : opt.allow_udp
    · cases hp : opt.public_addr with
      | none => simp_all
      | some replyIp =>
        simp only [hu, hp, if_true, run_udp_proxy] at h ⊢
        by_cases h1 : env.udpBindOk <;> by_cases h2 : env.udpRelayOk <;>
          simp_all [Event.isRelay, List.countP_cons]
    · by_cases hw : env.replyWriteOk <;> simp_all

/-- The four possible shapes of a session run: failure at authentication,
failure at request parsing, failure at resolution, or reaching the command
dispatch. -/
lemma serve_socks5_shape (opt : Opt) (env : Env) :
    (∃ e, (auth_step opt env).1 = Except.error e ∧
        serve_socks5 opt env = (Except.error e, (auth_step opt env).2))
    ∨ (∃ e, (auth_step opt env).1 = Except.ok () ∧
        env.request = Except.error e ∧
        serve_socks5 opt env =
          (Except.error (SocksError.replyError e),
           (auth_step opt env).2 ++ [Event.readCommand]))
    ∨ (∃ cmd ta e, (auth_step opt env).1 = Except.ok () ∧
        env.request = Except.ok (cmd, ta) ∧
        (resolve_dns env ta).1 = Except.error e ∧
        serve_socks5 opt env =
          (Except.error e,
           (auth_step opt env).2 ++ ([Event.readCommand] ++ [Event.resolveDns])))
    ∨ (∃ cmd ta ta2, (auth_step opt env).1 = Except.ok () ∧
        env.request = Except.ok (cmd, ta) ∧
        (resolve_dns env ta).1 = Except.ok ta2 ∧
        serve_socks5 opt env =
          ((command_step opt env cmd ta2).1,
           (auth_step opt env).2 ++
             ([Event.readCommand] ++
               ([Event.resolveDns] ++ (command_step opt env cmd ta2).2)))) := by
  rcases ha : auth_step opt env with ⟨ar, atr⟩
  cases ar with
  | error e =>
    left
    refine ⟨e, rfl, ?_⟩
    unfold serve_socks5
    rw [ha]
  | ok u =>
    cases u
    cases hb : env.request with
    | error e =>
      right; left
      refine ⟨e, rfl, rfl, ?_⟩
      unfold serve_socks5
      rw [ha]
      simp [read_command, hb]
    | ok cmdta =>
      rcases cmdta with ⟨cmd, ta⟩
      rcases hc : resolve_dns env ta with ⟨rr, rtr⟩
      have hrtr : rtr = [Event.resolveDns] := by
        have h2 := resolve_dns_trace env ta
        rw [hc] at h2
        exact h2
      cases rr with
      | error e =>
        right; right; left
        refine ⟨cmd, ta, e, rfl, rfl, ?_, ?_⟩
        · rw [hc]
        · unfold serve_socks5
          rw [ha]
          simp only [read_command, hb]
          rw [hc, hrtr]
      | ok ta2 =>
        right; right; right
        refine ⟨cmd, ta, ta2, rfl, rfl, ?_, ?_⟩
        · rw [hc]
        · unfold serve_socks5
          rw [ha]
          simp only [read_command, hb]
          rw [hc, hrtr]

lemma serve_socks5_trace_sorted (opt : Opt) (env : Env) :
    (serve_socks5 opt env).2.Pairwise fun a b => a.phase < b.phase := by
  have hA := auth_step_sorted opt env
  have hAle := auth_step_phase_le opt env
  have hrc : Event.phase Event.readCommand = 2 := rfl
  have hrd : Event.phase Event.resolveDns = 3 := rfl
  rcases serve_socks5_shape opt env with
      ⟨e, h1, h2⟩ | ⟨e, h1, h2, h3⟩ | ⟨cmd, ta, e, h1, h2, h3, h4⟩ |
      ⟨cmd, ta, ta2, h1, h2, h3, h4⟩
  · rw [h2]; exact hA
  · rw [h3, List.pairwise_append]
    refine ⟨hA, by simp, ?_⟩
    intro a haa b hbb
    have hle := hAle a haa
    simp only [List.mem_singleton] at hbb
    subst hbb
    omega
  · rw [h4, List.pairwise_append]
    refine ⟨hA, ?_, ?_⟩
    · rw [List.pairwise_append]
      refine ⟨by simp, by simp, ?_⟩
      intro a haa b hbb
      simp only [List.mem_singleton] at haa hbb
      subst haa; subst hbb
      omega
    · intro a haa b hbb
      have hle := hAle a haa
      simp only [List.mem_append, List.mem_singleton] at hbb
      rcases hbb with hbb | hbb <;> subst hbb <;> omega
  · rw [h4, List.pairwise_append]
    have hC := command_step_sorted opt env cmd ta2
    have hCge := command_step_phase_ge opt env cmd ta2
    refine ⟨hA, ?_, ?_⟩
    · rw [List.pairwise_append]
      refine ⟨by simp, ?_, ?_⟩
      · rw [List.pairwise_append]
        refine ⟨by simp, hC, ?_⟩
        intro a haa b hbb
        simp only [List.mem_singleton] at haa
        subst haa
        have hge := hCge b hbb
        omega
      · intro a haa b hbb
        simp only [List.mem_singleton] at haa
        subst haa
        simp only [List.mem_append, List.mem_singleton] at hbb
        rcases hbb with hbb | hbb
        · subst hbb; omega
        · have hge := hCge b hbb; omega
    · intro a haa b hbb
      have hle := hAle a haa
      simp only [List.mem_append, List.mem_singleton] at hbb
      rcases hbb with hbb | hbb | hbb
      · subst hbb; omega
      · subst hbb; omega
      · have hge := hCge b hbb; omega

lemma auth_step_no_relay (opt : Opt) (env : Env) :
    (auth_step opt env).2.countP Event.isRelay = 0 := by
  rw [List.countP_eq_zero]
  intro a ha
  have hle := auth_step_phase_le opt env a ha
  intro hrel
  have hge := phase_ge_of_isRelay a hrel
  omega

lemma serve_socks5_relay_count_le (opt : Opt) (env : Env) :
    (serve_socks5 opt env).2.countP Event.isRelay ≤ 1 := by
  have hA := auth_step_no_relay opt env
  rcases serve_socks5_shape opt env with
      ⟨e, h1, h2⟩ | ⟨e, h1, h2, h3⟩ | ⟨cmd, ta, e, h1, h2, h3, h4⟩ |
      ⟨cmd, ta, ta2, h1, h2, h3, h4⟩
  · rw [h2]
    show (auth_step opt env).2.countP Event.isRelay ≤ 1
    omega
  · rw [h3]; simp [List.countP_append, hA, Event.isRelay]
  · rw [h4]; simp [List.countP_append, hA, Event.isRelay]
  · rw [h4]
    have hC := command_step_relay_count_le opt env cmd ta2
    simp [List.countP_append, hA, Event.isRelay]
    omega

lemma serve_socks5_relay_count_of_ok (opt : Opt) (env : Env)
    (h : (serve_socks5 opt env).1 = Except.ok ()) :
    (serve_socks5 opt env).2.countP Event.isRelay = 1 := by
  have hA := auth_step_no_relay opt env
  rcases serve_socks5_shape opt env with
      ⟨e, h1, h2⟩ | ⟨e, h1, h2, h3⟩ | ⟨cmd, ta, e, h1, h2, h3, h4⟩ |
      ⟨cmd, ta, ta2, h1, h2, h3, h4⟩
  · rw [h2] at h; simp at h
  · rw [h3] at h; simp at h
  · rw [h4] at h; simp at h
  · rw [h4] at h
    dsimp only at h
    have hC := command_step_relay_count_of_ok opt env cmd ta2 h
    rw [h4]
    simp [List.countP_append, hA, Event.isRelay]
    omega

/-- In a phase-sorted trace, an event of strictly smaller phase sits at a
strictly smaller index. -/
lemma index_lt_of_phase_lt {tr : List Event}
    (h : tr.Pairwise fun a b => a.phase < b.phase)
    (i j : Fin tr.length) (hp : (tr.get i).phase < (tr.get j).phase) :
    (i : Nat) < (j : Nat) := by
  rcases lt_trichotomy (i : Nat) (j : Nat) with h1 | h1 | h1
  · exact h1
  · have : i = j := Fin.ext h1
    subst this
    exact absurd hp (lt_irrefl _)
  · have h2 := List.pairwise_iff_get.mp h j i (by exact h1)
    omega

/-- A sample configuration: no authentication, no UDP allowed, no public
address, default timeout. -/
def sampleOptTcp : Opt :=
  { listen_addr := "127.0.0.1:1080", public_addr := none,
    request_timeout := 10, auth := AuthMode.noAuth,
    skip_auth := false, allow_udp := false }

/-- A sample configuration in password mode. -/
def sampleOptPassword : Opt :=
  { listen_addr := "127.0.0.1:1080", public_addr := none,
    request_timeout := 10, auth := AuthMode.password "admin" "secret",
    skip_auth := false, allow_udp := false }

/-- A sample rejected configuration: skip-auth together with password mode. -/
def sampleOptBadSkip : Opt :=
  { listen_addr := "127.0.0.1:1080", public_addr := none,
    request_timeout := 10, auth := AuthMode.password "admin" "secret",
    skip_auth := true, allow_udp := false }

/-- A sample rejected configuration: UDP allowed without a public address. -/
def sampleOptBadUdp : Opt :=
  { listen_addr := "127.0.0.1:1080", public_addr := none,
    request_timeout := 10, auth := AuthMode.noAuth,
    skip_auth := false, allow_udp := true }

/-- A benign session environment issuing a Connect to a concrete IP. -/
def sampleEnvConnect : Env :=
  { handshakeOk := true, submitted := ("admin", "secret"),
    request := Except.ok (Socks5Command.tcpConnect,
      TargetAddr.ip (IpAddr.v4 93 184 216 34) 80),
    resolveResult := fun _ => some (IpAddr.v4 1 1 1 1),
    replyWriteOk := true, connectLatency := 0, tcpConnectOk := true,
    tcpRelayOk := true, udpBindOk := true, udpRelayOk := true }

/-- A session environment issuing a UdpAssociate request. -/
def sampleEnvUdpReq : Env :=
  { handshakeOk := true, submitted := ("admin", "secret"),
    request := Except.ok (Socks5Command.udpAssociate,
      TargetAddr.ip (IpAddr.v4 93 184 216 34) 53),
    resolveResult := fun _ => some (IpAddr.v4 1 1 1 1),
    replyWriteOk := true, connectLatency := 0, tcpConnectOk := true,
    tcpRelayOk := true, udpBindOk := true, udpRelayOk := true }

/-- A session environment issuing a Bind request. -/
def sampleEnvBindReq : Env :=
  { handshakeOk := true, submitted := ("admin", "secret"),
    request := Except.ok (Socks5Command.tcpBind,
      TargetAddr.ip (IpAddr.v4 93 184 216 34) 80),
    resolveResult := fun _ => some (IpAddr.v4 1 1 1 1),
    replyWriteOk := true, connectLatency := 0, tcpConnectOk := true,
    tcpRelayOk := true, udpBindOk := true, udpRelayOk := true }

/-- C4: every session executes its steps in the fixed order handshake,
authentication, request parsing, destination resolution, then exactly one
of TCP relay or UDP relay; the trace is strictly ordered by phase, a
successful session runs exactly one relay, no session runs more than one,
and a failure at authentication, at request parsing or at resolution
terminates the session at once, with no later step in the trace. -/
theorem serve_socks5_fixed_order (opt : Opt) (env : Env) :
    ((serve_socks5 opt env).2.Pairwise fun a b => a.phase < b.phase)
    ∧ ((serve_socks5 opt env).1 = Except.ok () →
        (serve_socks5 opt env).2.countP Event.isRelay = 1)
    ∧ ((serve_socks5 opt env).2.countP Event.isRelay ≤ 1)
    ∧ (∀ e, (auth_step opt env).1 = Except.error e →
        serve_socks5 opt env = (Except.error e, (auth_step opt env).2))
    ∧ (∀ e, (auth_step opt env).1 = Except.ok () →
        env.request = Except.error e →
        serve_socks5 opt env =
          (Except.error (SocksError.replyError e),
           (auth_step opt env).2 ++ [Event.readCommand]))
    ∧ (∀ cmd ta e, (auth_step opt env).1 = Except.ok () →
        env.request = Except.ok (cmd, ta) →
        (resolve_dns env ta).1 = Except.error e →
        serve_socks5 opt env =
          (Except.error e,
           (auth_step opt env).2 ++
             ([Event.readCommand] ++ [Event.resolveDns]))) := by
  refine ⟨serve_socks5_trace_sorted opt env,
          serve_socks5_relay_count_of_ok opt env,
          serve_socks5_relay_count_le opt env, ?_, ?_, ?_⟩
  · intro e hauth
    rcases serve_socks5_shape opt env with
        ⟨e0, h1, h2⟩ | ⟨e0, h1, h2, h3⟩ | ⟨cmd0, ta0, e0, h1, h2, h3, h4⟩ |
        ⟨cmd0, ta0, ta20, h1, h2, h3, h4⟩
    · rw [h1] at hauth
      injection hauth with he
      subst he
      exact h2
    · rw [h1] at hauth; simp at hauth
    · rw [h1] at hauth; simp at hauth
    · rw [h1] at hauth; simp at hauth
  · intro e hauth hreq
    rcases serve_socks5_shape opt env with
        ⟨e0, h1, h2⟩ | ⟨e0, h1, h2, h3⟩ | ⟨cmd0, ta0, e0, h1, h2, h3, h4⟩ |
        ⟨cmd0, ta0, ta20, h1, h2, h3, h4⟩
    · rw [hauth] at h1; simp at h1
    · rw [hreq] at h2
      injection h2 with he
      subst he
      exact h3
    · rw [hreq] at h2; simp at h2
    · rw [hreq] at h2; simp at h2
  · intro cmd ta e hauth hreq hres
    rcases serve_socks5_shape opt env with
        ⟨e0, h1, h2⟩ | ⟨e0, h1, h2, h3⟩ | ⟨cmd0, ta0, e0, h1, h2, h3, h4⟩ |
        ⟨cmd0, ta0, ta20, h1, h2, h3, h4⟩
    · rw [hauth] at h1; simp at h1
    · rw [hreq] at h2; simp at h2
    · rw [hreq] at h2
      injection h2 with hp
      have hc2 : cmd = cmd0 := congrArg Prod.fst hp
      have ht2 : ta = ta0 := congrArg Prod.snd hp
      subst hc2; subst ht2
      rw [hres] at h3
      injection h3 with he
      subst he
      exact h4
    · rw [hreq] at h2
      injection h2 with hp
      have hc2 : cmd = cmd0 := congrArg Prod.fst hp
      have ht2 : ta = ta0 := congrArg Prod.snd hp
      subst hc2; subst ht2
      rw [hres] at h3; simp at h3

/-- Witness for C4 at a concrete successful Connect session. -/
theorem serve_socks5_fixed_order_witness :
    (serve_socks5 sampleOptTcp sampleEnvConnect).2.countP Event.isRelay = 1 :=
  (serve_socks5_fixed_order sampleOptTcp sampleEnvConnect).2.1 rfl

/-- C1: in Username/Password mode the credential check is exact equality
against the configured pair: with the handshake done and a submitted
(username, password), authentication succeeds if and only if the submitted
username equals the configured username and the submitted password equals
the configured password. -/
theorem password_auth_exact_equality (opt : Opt) (env : Env)
    (u p user pass : String)
    (hmode : opt.auth = AuthMode.password u p)
    (hhs : env.handshakeOk = true)
    (hsub : env.submitted = (user, pass)) :
    (auth_step opt env).1 = Except.ok () ↔ (user = u ∧ pass = p) := by
  unfold auth_step accept_password_auth
  rw [hmode]
  simp only [hsub, hhs]
  by_cases h : user = u ∧ pass = p
  · obtain ⟨h1, h2⟩ := h
    simp [h1, h2]
  · have hb : ((user, pass).1 == u && (user, pass).2 == p) = false := by
      rcases Decidable.not_and_iff_or_not.mp h with h1 | h1 <;>
        simp [h1]
    simp only [hb]
    simp [h]

/-- Witness for C1: correct credentials accepted at a concrete instance. -/
theorem password_auth_exact_equality_witness :
    ((auth_step sampleOptPassword sampleEnvConnect).1 = Except.ok ()) ↔
      ("admin" = "admin" ∧ "secret" = "secret") :=
  password_auth_exact_equality sampleOptPassword sampleEnvConnect
    "admin" "secret" "admin" "secret" rfl rfl rfl

/-- C5: domain-name resolution sits strictly after the request read and
strictly before any destination-socket opening in every session trace, on
both the Connect and the UdpAssociate path; moreover a session that opens a
destination socket has performed resolution. -/
theorem dns_resolution_ordering (opt : Opt) (env : Env) :
    (∀ i j : Fin (serve_socks5 opt env).2.length,
        (serve_socks5 opt env).2.get i = Event.readCommand →
        (serve_socks5 opt env).2.get j = Event.resolveDns →
        (i : Nat) < (j : Nat))
    ∧ (∀ i j : Fin (serve_socks5 opt env).2.length,
        (serve_socks5 opt env).2.get i = Event.resolveDns →
        ((serve_socks5 opt env).2.get j).opensSocket = true →
        (i : Nat) < (j : Nat))
    ∧ ((∃ ev ∈ (serve_socks5 opt env).2, ev.opensSocket = true) →
        Event.resolveDns ∈ (serve_socks5 opt env).2) := by
  have hsorted := serve_socks5_trace_sorted opt env
  refine ⟨?_, ?_, ?_⟩
  · intro i j hi hj
    apply index_lt_of_phase_lt hsorted
    rw [hi, hj]
    decide
  · intro i j hi hj
    apply index_lt_of_phase_lt hsorted
    rw [hi, phase_eq_of_opensSocket _ hj]
    decide
  · rintro ⟨ev, hmem, hop⟩
    have hple := phase_eq_of_opensSocket ev hop
    have hAle := auth_step_phase_le opt env
    rcases serve_socks5_shape opt env with
        ⟨e, h1, h2⟩ | ⟨e, h1, h2, h3⟩ | ⟨cmd, ta, e, h1, h2, h3, h4⟩ |
        ⟨cmd, ta, ta2, h1, h2, h3, h4⟩
    · rw [h2] at hmem
      have hle := hAle ev hmem
      omega
    · rw [h3] at hmem
      simp only [List.mem_append, List.mem_singleton] at hmem
      rcases hmem with hmem | hmem
      · have hle := hAle ev hmem; omega
      · subst hmem; simp [Event.opensSocket] at hop
    · rw [h4]; simp
    · rw [h4]; simp

/-- Witness for C5: a concrete session that opened a destination socket
performed resolution. -/
theorem dns_resolution_ordering_witness :
    Event.resolveDns ∈ (serve_socks5 sampleOptTcp sampleEnvConnect).2 :=
  (dns_resolution_ordering sampleOptTcp sampleEnvConnect).2.2
    ⟨Event.tcpConnectAttempt 10, by decide, rfl⟩

/-- C2: under a validated configuration with no public reply address, a
session whose parsed command is UdpAssociate replies CommandNotSupported,
terminates with that error, and creates no UDP socket: no UDP bind or UDP
relay event occurs in its trace. -/
theorem udp_without_public_addr_rejected (opt : Opt) (env : Env)
    (ta ta2 : TargetAddr)
    (hv : validate_opt opt = Except.ok ())
    (hp : opt.public_addr = none)
    (hauth : (auth_step opt env).1 = Except.ok ())
    (hreq : env.request = Except.ok (Socks5Command.udpAssociate, ta))
    (hres : (resolve_dns env ta).1 = Except.ok ta2)
    (hw : env.replyWriteOk = true) :
    (serve_socks5 opt env).1 =
        Except.error (SocksError.replyError ReplyError.commandNotSupported)
    ∧ Event.replyErrorSent ReplyError.commandNotSupported ∈
        (serve_socks5 opt env).2
    ∧ ∀ ev ∈ (serve_socks5 opt env).2, ev.isUdp = false := by
  have hau : opt.allow_udp = false := by
    cases h : opt.allow_udp
    · rfl
    · exfalso
      unfold validate_opt at hv
      rw [if_pos ⟨h, hp⟩] at hv
      exact Except.noConfusion hv
  rcases serve_socks5_shape opt env with
      ⟨e, h1, h2⟩ | ⟨e, h1, h2, h3⟩ | ⟨cmd0, ta0, e, h1, h2, h3, h4⟩ |
      ⟨cmd0, ta0, ta20, h1, h2, h3, h4⟩
  · rw [hauth] at h1; simp at h1
  · rw [hreq] at h2; simp at h2
  · rw [hreq] at h2
    injection h2 with hpp
    have hc2 : Socks5Command.udpAssociate = cmd0 := congrArg Prod.fst hpp
    have ht2 : ta = ta0 := congrArg Prod.snd hpp
    subst ht2
    rw [hres] at h3; simp at h3
  · rw [hreq] at h2
    injection h2 with hpp
    have hc2 : Socks5Command.udpAssociate = cmd0 := congrArg Prod.fst hpp
    have ht2 : ta = ta0 := congrArg Prod.snd hpp
    subst ht2
    subst hc2
    rw [hres] at h3
    injection h3 with hta
    subst hta
    have hcs : command_step opt env Socks5Command.udpAssociate ta2 =
        (Except.error (SocksError.replyError ReplyError.commandNotSupported),
         [Event.replyErrorSent ReplyError.commandNotSupported]) := by
      simp [command_step, hau, reject_command_cases, hw]
    rw [hcs] at h4
    refine ⟨by rw [h4], by rw [h4]; simp, ?_⟩
    intro ev hmem
    rw [h4] at hmem
    simp only [List.mem_append, List.mem_singleton] at hmem
    rcases hmem with hmem | hmem | hmem | hmem
    · have hle := auth_step_phase_le opt env ev hmem
      cases h10 : ev.isUdp
      · rfl
      · have hge := phase_ge_of_isUdp ev h10
        omega
    · subst hmem; rfl
    · subst hmem; rfl
    · subst hmem; rfl

/-- Witness for C2: a concrete UdpAssociate session under a validated
configuration with no public address ends with CommandNotSupported. -/
theorem udp_without_public_addr_rejected_witness :
    (serve_socks5 sampleOptTcp sampleEnvUdpReq).1 =
      Except.error (SocksError.replyError ReplyError.commandNotSupported) :=
  (udp_without_public_addr_rejected sampleOptTcp sampleEnvUdpReq
      (TargetAddr.ip (IpAddr.v4 93 184 216 34) 53)
      (TargetAddr.ip (IpAddr.v4 93 184 216 34) 53)
      rfl rfl rfl rfl rfl rfl).1

/-- C3: a session whose parsed command is Bind — the only command value
other than Connect and UdpAssociate — receives a CommandNotSupported reply
and terminates with that error; no relay is started and no destination
socket is opened. -/
theorem bind_command_rejected (opt : Opt) (env : Env)
    (ta ta2 : TargetAddr)
    (hauth : (auth_step opt env).1 = Except.ok ())
    (hreq : env.request = Except.ok (Socks5Command.tcpBind, ta))
    (hres : (resolve_dns env ta).1 = Except.ok ta2)
    (hw : env.replyWriteOk = true) :
    (serve_socks5 opt env).1 =
        Except.error (SocksError.replyError ReplyError.commandNotSupported)
    ∧ Event.replyErrorSent ReplyError.commandNotSupported ∈
        (serve_socks5 opt env).2
    ∧ ∀ ev ∈ (serve_socks5 opt env).2,
        ev.isRelay = false ∧ ev.opensSocket = false := by
  rcases serve_socks5_shape opt env with
      ⟨e, h1, h2⟩ | ⟨e, h1, h2, h3⟩ | ⟨cmd0, ta0, e, h1, h2, h3, h4⟩ |
      ⟨cmd0, ta0, ta20, h1, h2, h3, h4⟩
  · rw [hauth] at h1; simp at h1
  · rw [hreq] at h2; simp at h2
  · rw [hreq] at h2
    injection h2 with hpp
    have ht2 : ta = ta0 := congrArg Prod.snd hpp
    subst ht2
    rw [hres] at h3; simp at h3
  · rw [hreq] at h2
    injection h2 with hpp
    have hc2 : Socks5Command.tcpBind = cmd0 := congrArg Prod.fst hpp
    have ht2 : ta = ta0 := congrArg Prod.snd hpp
    subst ht2
    subst hc2
    rw [hres] at h3
    injection h3 with hta
    subst hta
    have hcs : command_step opt env Socks5Command.tcpBind ta2 =
        (Except.error (SocksError.replyError ReplyError.commandNotSupported),
         [Event.replyErrorSent ReplyError.commandNotSupported]) := by
      simp [command_step, reject_command_cases, hw]
    rw [hcs] at h4
    refine ⟨by rw [h4], by rw [h4]; simp, ?_⟩
    intro ev hmem
    rw [h4] at hmem
    simp only [List.mem_append, List.mem_singleton] at hmem
    rcases hmem with hmem | hmem | hmem | hmem
    · have hle := auth_step_phase_le opt env ev hmem
      constructor
      · cases h10 : ev.isRelay
        · rfl
        · have hge := phase_ge_of_isRelay ev h10
          omega
      · cases h10 : ev.opensSocket
        · rfl
        · have hge := phase_eq_of_opensSocket ev h10
          omega
    · subst hmem; exact ⟨rfl, rfl⟩
    · subst hmem; exact ⟨rfl, rfl⟩
    · subst hmem; exact ⟨rfl, rfl⟩

/-- Witness for C3: a concrete Bind session ends with CommandNotSupported. -/
theorem bind_command_rejected_witness :
    (serve_socks5 sampleOptTcp sampleEnvBindReq).1 =
      Except.error (SocksError.replyError ReplyError.commandNotSupported) :=
  (bind_command_rejected sampleOptTcp sampleEnvBindReq
      (TargetAddr.ip (IpAddr.v4 93 184 216 34) 80)
      (TargetAddr.ip (IpAddr.v4 93 184 216 34) 80)
      rfl rfl rfl rfl).1

/-- Any event of a session trace either belongs to the authentication step,
is the request read, is the resolution, or belongs to the command dispatch
of a fully parsed and resolved request. -/
lemma serve_mem_cases (opt : Opt) (env : Env) (ev : Event)
    (hmem : ev ∈ (serve_socks5 opt env).2) :
    ev ∈ (auth_step opt env).2 ∨ ev = Event.readCommand ∨
    ev = Event.resolveDns ∨
    ∃ cmd ta ta2, env.request = Except.ok (cmd, ta) ∧
      (resolve_dns env ta).1 = Except.ok ta2 ∧
      ev ∈ (command_step opt env cmd ta2).2 := by
  rcases serve_socks5_shape opt env with
      ⟨e, h1, h2⟩ | ⟨e, h1, h2, h3⟩ | ⟨cmd, ta, e, h1, h2, h3, h4⟩ |
      ⟨cmd, ta, ta2, h1, h2, h3, h4⟩
  · rw [h2] at hmem
    exact Or.inl hmem
  · rw [h3] at hmem
    simp only [List.mem_append, List.mem_singleton] at hmem
    rcases hmem with hmem | hmem
    · exact Or.inl hmem
    · exact Or.inr (Or.inl hmem)
  · rw [h4] at hmem
    simp only [List.mem_append, List.mem_singleton] at hmem
    rcases hmem with hmem | hmem | hmem
    · exact Or.inl hmem
    · exact Or.inr (Or.inl hmem)
    · exact Or.inr (Or.inr (Or.inl hmem))
  · rw [h4] at hmem
    simp only [List.mem_append, List.mem_singleton] at hmem
    rcases hmem with hmem | hmem | hmem | hmem
    · exact Or.inl hmem
    · exact Or.inr (Or.inl hmem)
    · exact Or.inr (Or.inr (Or.inl hmem))
    · exact Or.inr (Or.inr (Or.inr ⟨cmd, ta, ta2, h2, h3, hmem⟩))

/-- Every authentication-step event appears in the full session trace. -/
lemma auth_mem_serve (opt : Opt) (env : Env) (ev : Event)
    (h : ev ∈ (auth_step opt env).2) :
    ev ∈ (serve_socks5 opt env).2 := by
  rcases serve_socks5_shape opt env with
      ⟨e, h1, h2⟩ | ⟨e, h1, h2, h3⟩ | ⟨cmd, ta, e, h1, h2, h3, h4⟩ |
      ⟨cmd, ta, ta2, h1, h2, h3, h4⟩
  · rw [h2]; exact h
  · rw [h3]; simp [h]
  · rw [h4]; simp [h]
  · rw [h4]; simp [h]

/-- C6: the spawned task swallows and logs any session error; one iteration
of the accept loop always continues, never propagating a session outcome. -/
theorem accept_loop_isolates_session_errors
    (acceptResult : Except String (Opt × Env)) :
    (accept_iteration acceptResult).continues = true
    ∧ (∀ opt env e, acceptResult = Except.ok (opt, env) →
        (serve_socks5 opt env).1 = Except.error e →
        (accept_iteration acceptResult).log = some e.message) := by
  constructor
  · cases acceptResult with
    | error err => rfl
    | ok oe => rcases oe with ⟨opt, env⟩; rfl
  · intro opt env e hacc hserve
    subst hacc
    simp [accept_iteration, spawn_and_log_error, hserve]

/-- Witness for C6: a failed Bind session is logged and does not abort. -/
theorem accept_loop_isolates_session_errors_witness :
    (accept_iteration (Except.ok (sampleOptTcp, sampleEnvBindReq))).log =
      some (SocksError.replyError ReplyError.commandNotSupported).message :=
  (accept_loop_isolates_session_errors
      (Except.ok (sampleOptTcp, sampleEnvBindReq))).2
    sampleOptTcp sampleEnvBindReq
    (SocksError.replyError ReplyError.commandNotSupported) rfl rfl

lemma command_step_tcp_events (opt : Opt) (env : Env) (cmd : Socks5Command)
    (ta : TargetAddr) :
    (∀ t, Event.tcpConnectAttempt t ∈ (command_step opt env cmd ta).2 →
        t = opt.request_timeout)
    ∧ (∀ t, Event.tcpRelay t ∈ (command_step opt env cmd ta).2 →
        t = opt.request_timeout ∧
          env.connectLatency ≤ opt.request_timeout) := by
  cases cmd with
  | tcpConnect =>
    simp only [command_step, run_tcp_proxy]
    by_cases h1 : opt.request_timeout < env.connectLatency
    · simp [h1]
    · rw [if_neg h1]
      by_cases h2 : env.tcpConnectOk <;> by_cases h3 : env.tcpRelayOk <;>
        simp_all [Nat.not_lt]
  | tcpBind =>
    simp only [command_step, reject_command_cases]
    by_cases hw : env.replyWriteOk <;> simp [hw]
  | udpAssociate =>
    simp only [command_step, reject_command_cases]
    by_cases hu : opt.allow_udp = true
    · rcases hp : opt.public_addr with _ | ip
      · simp [hu, hp]
      · simp only [hu, hp, if_true, run_udp_proxy]
        by_cases h1 : env.udpBindOk <;> by_cases h2 : env.udpRelayOk <;>
          simp [h1, h2]
    · by_cases hw : env.replyWriteOk <;> simp [hu, hw]

/-- C7: the request timeout is configurable with default 10 seconds and the
configured value is the one applied to every TCP relay session: every TCP
connect attempt and every TCP relay event carries `opt.request_timeout`,
and a relay only starts when the destination connected within that bound. -/
theorem request_timeout_governs_tcp (opt : Opt) (env : Env) :
    parse_request_timeout none = 10
    ∧ (∀ t, Event.tcpConnectAttempt t ∈ (serve_socks5 opt env).2 →
        t = opt.request_timeout)
    ∧ (∀ t, Event.tcpRelay t ∈ (serve_socks5 opt env).2 →
        t = opt.request_timeout ∧
          env.connectLatency ≤ opt.request_timeout) := by
  refine ⟨rfl, ?_, ?_⟩
  · intro t hmem
    rcases serve_mem_cases opt env _ hmem with
        hm | hm | hm | ⟨cmd, ta, ta2, hq, hr, hm⟩
    · have hle := auth_step_phase_le opt env _ hm
      simp only [Event.phase] at hle
      omega
    · exact absurd hm (by simp)
    · exact absurd hm (by simp)
    · exact (command_step_tcp_events opt env cmd ta2).1 t hm
  · intro t hmem
    rcases serve_mem_cases opt env _ hmem with
        hm | hm | hm | ⟨cmd, ta, ta2, hq, hr, hm⟩
    · have hle := auth_step_phase_le opt env _ hm
      simp only [Event.phase] at hle
      omega
    · exact absurd hm (by simp)
    · exact absurd hm (by simp)
    · exact (command_step_tcp_events opt env cmd ta2).2 t hm

/-- Witness for C7 at a concrete session whose relay ran. -/
theorem request_timeout_governs_tcp_witness :
    (10 : Nat) = sampleOptTcp.request_timeout ∧
      sampleEnvConnect.connectLatency ≤ sampleOptTcp.request_timeout :=
  (request_timeout_governs_tcp sampleOptTcp sampleEnvConnect).2.2 10
    (by decide)

lemma auth_step_skipAuth_mem (opt : Opt) (env : Env) :
    Event.skipAuth ∈ (auth_step opt env).2 ↔
      (opt.skip_auth = true ∧ opt.auth = AuthMode.noAuth) := by
  unfold auth_step skip_auth_protocol accept_no_auth accept_password_auth
  rcases h : opt.auth with _ | ⟨u, p⟩
  · by_cases h1 : opt.skip_auth <;> by_cases h2 : env.handshakeOk <;>
      simp [h1, h2]
  · by_cases h2 : env.handshakeOk <;>
      by_cases h3 : (env.submitted.1 == u && env.submitted.2 == p) = true <;>
      simp [h2, h3]

/-- C9: setting skip-auth together with an authentication mode other than
NoAuth makes startup fail with an argument-input error before the listener
is bound, and a session takes the non-RFC-compliant skip-handshake path
exactly when skip-auth is set and the mode is NoAuth. -/
theorem skip_auth_guard (opt : Opt) (bindOk : Bool) (env : Env) :
    (opt.skip_auth = true → opt.auth ≠ AuthMode.noAuth →
      ∃ m, spawn_socks_server_startup opt bindOk =
        (Except.error (SocksError.argumentInputError m), []))
    ∧ (Event.skipAuth ∈ (serve_socks5 opt env).2 ↔
        (opt.skip_auth = true ∧ opt.auth = AuthMode.noAuth)) := by
  constructor
  · intro hskip hne
    unfold spawn_socks_server_startup validate_opt
    by_cases h1 : opt.allow_udp = true ∧ opt.public_addr = none
    · rw [if_pos h1]
      exact ⟨_, rfl⟩
    · rw [if_neg h1, if_pos ⟨hskip, hne⟩]
      exact ⟨_, rfl⟩
  · constructor
    · intro hmem
      rcases serve_mem_cases opt env _ hmem with
          hm | hm | hm | ⟨cmd, ta, ta2, hq, hr, hm⟩
      · exact (auth_step_skipAuth_mem opt env).mp hm
      · exact absurd hm (by simp)
      · exact absurd hm (by simp)
      · have hge := command_step_phase_ge opt env cmd ta2 _ hm
        simp only [Event.phase] at hge
        omega
    · rintro ⟨h1, h2⟩
      exact auth_mem_serve opt env _
        ((auth_step_skipAuth_mem opt env).mpr ⟨h1, h2⟩)

/-- Witness for C9: skip-auth together with password mode is rejected at
startup before the listener is bound. -/
theorem skip_auth_guard_witness :
    ∃ m, spawn_socks_server_startup sampleOptBadSkip true =
      (Except.error (SocksError.argumentInputError m), []) :=
  (skip_auth_guard sampleOptBadSkip true sampleEnvConnect).1 rfl (by decide)

lemma auth_step_error_cases (opt : Opt) (env : Env) (e : SocksError)
    (h : (auth_step opt env).1 = Except.error e) :
    (∃ m, e = SocksError.ioError m) ∨
    (∃ m, e = SocksError.authenticationRejected m) := by
  unfold auth_step skip_auth_protocol accept_no_auth accept_password_auth at h
  rcases hA : opt.auth with _ | ⟨u, p⟩ <;> rw [hA] at h
  · by_cases h1 : opt.skip_auth <;> by_cases h2 : env.handshakeOk <;>
      simp_all
    exact Or.inl ⟨_, h.symm⟩
  · by_cases h2 : env.handshakeOk <;>
      by_cases h3 : (env.submitted.1 == u && env.submitted.2 == p) = true <;>
      simp_all <;>
      first
        | exact Or.inl ⟨_, h.symm⟩
        | exact Or.inr ⟨_, h.symm⟩

lemma resolve_dns_error_cases (env : Env) (ta : TargetAddr) (e : SocksError)
    (h : (resolve_dns env ta).1 = Except.error e) :
    e = SocksError.replyError ReplyError.hostUnreachable := by
  rcases ta with ⟨a, port⟩ | ⟨name, port⟩
  · simp [resolve_dns] at h
  · simp only [resolve_dns] at h
    rcases hr : env.resolveResult name with _ | addr <;> rw [hr] at h <;>
      simp_all

lemma command_step_error_not_context (opt : Opt) (env : Env)
    (cmd : Socks5Command) (ta2 : TargetAddr)
    (hpub : opt.allow_udp = true → opt.public_addr.isSome = true)
    (m : String) :
    (command_step opt env cmd ta2).1 ≠
      Except.error (SocksError.context m) := by
  cases cmd with
  | tcpConnect =>
    simp only [command_step, run_tcp_proxy]
    by_cases h1 : opt.request_timeout < env.connectLatency
    · simp [h1]
    · rw [if_neg h1]
      by_cases h2 : env.tcpConnectOk <;> by_cases h3 : env.tcpRelayOk <;>
        simp_all
  | tcpBind =>
    simp only [command_step, reject_command_cases]
    by_cases hw : env.replyWriteOk <;> simp [hw]
  | udpAssociate =>
    simp only [command_step, reject_command_cases]
    by_cases hu : opt.allow_udp = true
    · have hsome := hpub hu
      rcases hp : opt.public_addr with _ | ip
      · rw [hp] at hsome; simp at hsome
      · simp only [hu, hp, if_true, run_udp_proxy]
        by_cases h1 : env.udpBindOk <;> by_cases h2 : env.udpRelayOk <;>
          simp [h1, h2]
    · by_cases hw : env.replyWriteOk <;> simp [hu, hw]

/-- C10: allowing UDP without a public address fails startup with an
argument-input error before the listener is bound; a validated
configuration that allows UDP has a public address; and under a validated
configuration no session can end with the "invalid reply ip" context
error — that branch of the UdpAssociate relay arm is unreachable. -/
theorem udp_public_addr_invariant (opt : Opt) (bindOk : Bool) (env : Env) :
    (opt.allow_udp = true → opt.public_addr = none →
      ∃ m, spawn_socks_server_startup opt bindOk =
        (Except.error (SocksError.argumentInputError m), []))
    ∧ (validate_opt opt = Except.ok () → opt.allow_udp = true →
        opt.public_addr.isSome = true)
    ∧ (validate_opt opt = Except.ok () →
        (serve_socks5 opt env).1 ≠
          Except.error (SocksError.context "invalid reply ip")) := by
  have hpub : validate_opt opt = Except.ok () → opt.allow_udp = true →
      opt.public_addr.isSome = true := by
    intro hv hau
    rcases hp : opt.public_addr with _ | ip
    · exfalso
      unfold validate_opt at hv
      rw [if_pos ⟨hau, hp⟩] at hv
      exact Except.noConfusion hv
    · rfl
  refine ⟨?_, hpub, ?_⟩
  · intro h1 h2
    unfold spawn_socks_server_startup validate_opt
    rw [if_pos ⟨h1, h2⟩]
    exact ⟨_, rfl⟩
  · intro hv hcon
    rcases serve_socks5_shape opt env with
        ⟨e, h1, h2⟩ | ⟨e, h1, h2, h3⟩ | ⟨cmd, ta, e, h1, h2, h3, h4⟩ |
        ⟨cmd, ta, ta2, h1, h2, h3, h4⟩
    · rw [h2] at hcon
      injection hcon with he
      rcases auth_step_error_cases opt env e h1 with ⟨m2, hm⟩ | ⟨m2, hm⟩ <;>
        rw [he] at hm <;> exact SocksError.noConfusion hm
    · rw [h3] at hcon
      injection hcon with he
      exact SocksError.noConfusion he
    · rw [h4] at hcon
      injection hcon with he
      have hm := resolve_dns_error_cases env ta e h3
      rw [he] at hm
      exact SocksError.noConfusion hm
    · rw [h4] at hcon
      exact command_step_error_not_context opt env cmd ta2 (hpub hv)
        "invalid reply ip" hcon

/-- Witness for C10: the configuration allowing UDP without a public
address is rejected at startup. -/
theorem udp_public_addr_invariant_witness :
    ∃ m, spawn_socks_server_startup sampleOptBadUdp true =
      (Except.error (SocksError.argumentInputError m), []) :=
  (udp_public_addr_invariant sampleOptBadUdp true sampleEnvConnect).1 rfl rfl
